import Mathlib

/-!
# bjoern: the reactor callbacks of `src/bjoern.c`

A shallow embedding of the callbacks that `bjoern.c` registers with libev
(`on_sock_accept`, `on_sock_read`, `while_sock_canwrite`, `on_sigint`) and of the
start-up path (`Bjoern_Run`, `init_socket`, `Transaction_new`, `bjoern_cleanup`).

Conventions of the embedding

* A C pointer that may be `NULL` is an `Option`; calling or writing through `NULL`
  ends the run with status `null_pointer`.
* `assert(0)` ends the run with status `assert_failed` (assertions enabled).
* Everything the callbacks obtain from outside this file (system call results, the
  parser, the handlers of `handlers/*.c`) is an explicit argument.  A handler's
  `*_handler_initialize` receives the transaction and answers with a boolean; what
  it stores in its private payload is not modelled.
* Each callback returns the transaction record it leaves behind together with the
  ordered list of externally visible effects it performed.
-/

namespace Bjoern

/-! ## Data model -/

/-- Values of `request_parser->exit_code` that `on_sock_read` switches on.  The
constants come from `bjoern.h`; any value without a `case` label is `other`. -/
inductive ExitCode where
  | PARSER_OK
  | HTTP_INTERNAL_SERVER_ERROR
  | HTTP_NOT_FOUND
  | USE_CACHE
  | other (code : Nat)
  deriving DecidableEq, Repr

/-- The three handler families whose function triples `TRY_HANDLER(name)` refers to:
`cache_handler_*`, `wsgi_handler_*` (the Application handler) and `raw_handler_*`. -/
inductive Handler where
  | cache
  | wsgi
  | raw
  deriving DecidableEq, Repr

/-- The canned responses assigned to `handler_data.raw.response`. -/
inductive RawMessage where
  | HTTP_500_MESSAGE
  | HTTP_404_MESSAGE
  deriving DecidableEq, Repr

/-- Return values of `transaction->handler_write(transaction)`; a value that is
neither of the two named constants is `other`. -/
inductive response_status where
  | RESPONSE_NOT_YET_FINISHED
  | RESPONSE_FINISHED
  | other (code : Nat)
  deriving DecidableEq, Repr

/-- The fields of `Transaction` that `bjoern.c` reads or writes.  The two watchers
are represented by their libev `active` flag (set by `ev_io_start`, cleared by
`ev_io_stop`); the function pointers are `none` while they are `NULL`. -/
structure Transaction where
  client_fd : Int
  exit_code : ExitCode
  handler_write : Option Handler
  handler_finalize : Option Handler
  raw_response : Option RawMessage
  read_watcher : Bool
  write_watcher : Bool
  deriving DecidableEq, Repr

/-- Externally visible effects of the connection callbacks, in program order. -/
inductive Effect where
  | transaction_calloc
  | parser_calloc
  | free_transaction
  | http_parser_init
  | accept
  | fcntl
  | ev_io_start_read
  | http_parser_execute
  | handler_init (h : Handler)
  | GIL_LOCK
  | GIL_UNLOCK
  | PyErr_Print
  | ev_io_stop_read
  | ev_io_start_write
  | handler_write (h : Handler)
  | ev_io_stop_write
  | close (fd : Int)
  | handler_finalize (h : Handler)
  | Transaction_free
  deriving DecidableEq, Repr

/-- How a callback invocation ended. -/
inductive Status where
  | returned
  | freed
  | assert_failed
  | null_pointer
  deriving DecidableEq, Repr

/-- Result of one callback invocation: the transaction record as the callback left
it, the effects performed, and how the invocation ended.  With status `freed` the
record is the last contents before `Transaction_free`. -/
structure Run where
  txn : Transaction
  trace : List Effect
  status : Status
  deriving DecidableEq, Repr

/-- Compile-time configuration. -/
structure Config where
  WANT_CACHING : Bool
  deriving DecidableEq, Repr

/-- The `*_handler_initialize` functions of `handlers/cache.c`, `handlers/wsgi.c`
and `handlers/raw.c`. -/
structure Handlers where
  cache_handler_init : Transaction → Bool
  wsgi_handler_init : Transaction → Bool
  raw_handler_init : Transaction → Bool

/-- What one invocation of `on_sock_accept` obtains from the outside: whether each
`calloc` in `Transaction_new` succeeded, and the results of `accept` and of
`fcntl(fd, F_GETFL, 0)`. -/
structure AcceptEnv where
  transaction_calloc_ok : Bool
  parser_calloc_ok : Bool
  accept_ret : Int
  fcntl_getfl : Int
  deriving DecidableEq, Repr

/-- What one invocation of `on_sock_read` obtains from the outside: the result of
`read`, the exit code that the parser callbacks assign during `http_parser_execute`
(`none` when they assign nothing), and the answer of `PyErr_Occurred`. -/
structure ReadEnv where
  bytes_read : Int
  parser_mark : Option ExitCode
  PyErr_Occurred : Bool
  deriving DecidableEq, Repr

/-- The libev event bit `EV_READ`. -/
def EV_READ : Nat := 1

/-! ## Transaction_new and on_sock_accept -/

/-- Memory as `calloc(1, sizeof(Transaction))` hands it out, with the exit state
already at the value `Transaction_new` resets it to. -/
def Transaction.zeroed : Transaction :=
  { client_fd := 0
    exit_code := .PARSER_OK
    handler_write := none
    handler_finalize := none
    raw_response := none
    read_watcher := false
    write_watcher := false }

/-- Result of `Transaction_new`: `fault` is set when the function wrote through a
`NULL` pointer; otherwise `result` is the returned pointer. -/
structure NewResult where
  fault : Bool
  result : Option Transaction
  trace : List Effect
  deriving DecidableEq, Repr

/-- `Transaction_new`.  The first `calloc` is not checked, so a failure there is
followed by the store `transaction->request_parser = ...` through `NULL`.  A failed
second `calloc` frees the transaction and returns `NULL`. -/
def Transaction_new (transaction_calloc_ok parser_calloc_ok : Bool) : NewResult :=
  if !transaction_calloc_ok then
    { fault := true, result := none, trace := [.transaction_calloc, .parser_calloc] }
  else if !parser_calloc_ok then
    { fault := false, result := none,
      trace := [.transaction_calloc, .parser_calloc, .free_transaction] }
  else
    { fault := false, result := some Transaction.zeroed,
      trace := [.transaction_calloc, .parser_calloc, .http_parser_init] }

/-- `on_sock_accept`.  The pointer returned by `Transaction_new` is used without a
check: `transaction->client_fd = accept(...)`. -/
def on_sock_accept (env : AcceptEnv) : Run :=
  let a := Transaction_new env.transaction_calloc_ok env.parser_calloc_ok
  if a.fault then
    { txn := Transaction.zeroed, trace := a.trace, status := .null_pointer }
  else
    match a.result with
    | none =>
      { txn := Transaction.zeroed, trace := a.trace ++ [.accept], status := .null_pointer }
    | some t =>
      let t1 := { t with client_fd := env.accept_ret }
      if t1.client_fd < 0 then
        { txn := t1, trace := a.trace ++ [.accept], status := .returned }
      else
        { txn := { t1 with read_watcher := true }
          trace := a.trace ++ [.accept, .fcntl, .fcntl, .ev_io_start_read]
          status := .returned }

/-! ## on_sock_read -/

/-- The assignments of `TRY_HANDLER(name)`: both function pointers are set to the
handler's functions before its initialiser is called. -/
def set_handler (t : Transaction) (name : Handler) : Transaction :=
  { t with handler_write := some name, handler_finalize := some name }

/-- The assignment `transaction->handler_data.raw.response = message`. -/
def set_raw_response (t : Transaction) (message : RawMessage) : Transaction :=
  { t with raw_response := some message }

/-- `TRY_HANDLER(name)`: set the two pointers, call the initialiser; the boolean
says whether the `break` is taken. -/
def TRY_HANDLER (name : Handler) (init : Transaction → Bool) (t : Transaction)
    (tr : List Effect) : Bool × Transaction × List Effect :=
  (init (set_handler t name), set_handler t name, tr ++ [.handler_init name])

/-- The labels `read_finished` and `start_write`: stop the read watcher, then
initialise and start the write watcher. -/
def read_finished (t : Transaction) (tr : List Effect) : Run :=
  { txn := { t with read_watcher := false, write_watcher := true }
    trace := tr ++ [.ev_io_stop_read, .ev_io_start_write]
    status := .returned }

/-- Effect of `http_parser_execute` on the exit code. -/
def http_parser_execute (env : ReadEnv) (t : Transaction) : Transaction :=
  match env.parser_mark with
  | none => t
  | some c => { t with exit_code := c }

/-- The arm `case HTTP_INTERNAL_SERVER_ERROR:` of the nested switch, entered by its
label or by falling through from `TRY_HANDLER(wsgi)`. -/
def case_HTTP_INTERNAL_SERVER_ERROR (H : Handlers) (env : ReadEnv) (t : Transaction)
    (tr : List Effect) : Run :=
  let tr1 := if env.PyErr_Occurred then tr ++ [.PyErr_Print] else tr
  match TRY_HANDLER .raw H.raw_handler_init (set_raw_response t .HTTP_500_MESSAGE) tr1 with
  | (true, t2, tr2) => read_finished t2 (tr2 ++ [.GIL_UNLOCK])
  | (false, t2, tr2) => { txn := t2, trace := tr2, status := .assert_failed }

/-- The arm `case PARSER_OK: case HTTP_INTERNAL_SERVER_ERROR:` of the outer switch:
`GIL_LOCK`, the nested `switch(transaction->request_parser->exit_code)`, then
`GIL_UNLOCK` and `goto read_finished`.  The nested switch has no `default`. -/
def case_PARSER_OK (H : Handlers) (env : ReadEnv) (t : Transaction)
    (tr : List Effect) : Run :=
  match t.exit_code with
  | .PARSER_OK =>
    match TRY_HANDLER .wsgi H.wsgi_handler_init t (tr ++ [.GIL_LOCK]) with
    | (true, t1, tr1) => read_finished t1 (tr1 ++ [.GIL_UNLOCK])
    | (false, t1, tr1) => case_HTTP_INTERNAL_SERVER_ERROR H env t1 tr1
  | .HTTP_INTERNAL_SERVER_ERROR =>
    case_HTTP_INTERNAL_SERVER_ERROR H env t (tr ++ [.GIL_LOCK])
  | _ => read_finished t (tr ++ [.GIL_LOCK, .GIL_UNLOCK])

/-- `on_sock_read`. -/
def on_sock_read (cfg : Config) (H : Handlers) (env : ReadEnv) (t : Transaction)
    (revents : Nat) : Run :=
  if revents &&& EV_READ = 0 then
    { txn := t, trace := [], status := .returned }
  else if env.bytes_read = 0 then
    read_finished t []
  else if env.bytes_read = -1 then
    { txn := t, trace := [], status := .returned }
  else
    let t0 := http_parser_execute env t
    let tr0 := [Effect.http_parser_execute]
    match t0.exit_code with
    | .USE_CACHE =>
      if cfg.WANT_CACHING then
        match TRY_HANDLER .cache H.cache_handler_init t0 tr0 with
        | (true, t1, tr1) => read_finished t1 tr1
        | (false, t1, tr1) => case_PARSER_OK H env t1 tr1
      else
        { txn := t0, trace := tr0, status := .assert_failed }
    | .PARSER_OK => case_PARSER_OK H env t0 tr0
    | .HTTP_INTERNAL_SERVER_ERROR => case_PARSER_OK H env t0 tr0
    | .HTTP_NOT_FOUND =>
      match TRY_HANDLER .raw H.raw_handler_init
          (set_raw_response t0 .HTTP_404_MESSAGE) tr0 with
      | (true, t2, tr2) => read_finished t2 tr2
      | (false, t2, tr2) => { txn := t2, trace := tr2, status := .assert_failed }
    | .other _ => { txn := t0, trace := tr0, status := .assert_failed }

/-! ## while_sock_canwrite -/

/-- `while_sock_canwrite`; `ret` is the value that the call
`transaction->handler_write(transaction)` returns in this invocation. -/
def while_sock_canwrite (t : Transaction) (ret : response_status) : Run :=
  match t.handler_write with
  | none => { txn := t, trace := [], status := .null_pointer }
  | some w =>
    match ret with
    | .RESPONSE_NOT_YET_FINISHED =>
      { txn := t, trace := [.handler_write w], status := .returned }
    | .RESPONSE_FINISHED =>
      let t1 := { t with write_watcher := false }
      match t.handler_finalize with
      | none =>
        { txn := t1
          trace := [.handler_write w, .ev_io_stop_write, .close t.client_fd]
          status := .null_pointer }
      | some f =>
        { txn := t1
          trace := [.handler_write w, .ev_io_stop_write, .close t.client_fd,
                    .handler_finalize f, .Transaction_free]
          status := .freed }
    | .other _ => { txn := t, trace := [.handler_write w], status := .assert_failed }

/-- Consecutive write-interest events on one connection.  libev invokes the callback
only while the write watcher is started and the process is alive; the i-th element
of the list is what the handler's write returns on its i-th call. -/
def write_events (t : Transaction) : List response_status → Run
  | [] => { txn := t, trace := [], status := .returned }
  | ret :: rest =>
    if t.write_watcher then
      let r := while_sock_canwrite t ret
      match r.status with
      | .returned =>
        let r2 := write_events r.txn rest
        { txn := r2.txn, trace := r.trace ++ r2.trace, status := r2.status }
      | _ => r
    else
      { txn := t, trace := [], status := .returned }

/-! ## Shutdown: bjoern_cleanup and on_sigint -/

/-- The global `shall_cleanup` together with counters for the two effects of the
shutdown path: requests `ev_unloop(loop, EVUNLOOP_ALL)` and calls of
`PyErr_SetInterrupt`. -/
structure LoopState where
  shall_cleanup : Bool
  unloop_requests : Nat
  interrupts : Nat
  deriving DecidableEq, Repr

/-- `bjoern_cleanup`. -/
def bjoern_cleanup (s : LoopState) : LoopState :=
  if s.shall_cleanup then
    { s with unloop_requests := s.unloop_requests + 1, shall_cleanup := false }
  else
    s

/-- `on_sigint`: `PyErr_SetInterrupt()` followed by `bjoern_cleanup(loop)`. -/
def on_sigint (s : LoopState) : LoopState :=
  bjoern_cleanup { s with interrupts := s.interrupts + 1 }

/-- The two call sites of `bjoern_cleanup`. -/
inductive CleanupCall where
  | on_sigint
  | Bjoern_Run
  deriving DecidableEq, Repr

/-- One call of `bjoern_cleanup` from the given call site. -/
def CleanupCall.apply (s : LoopState) : CleanupCall → LoopState
  | .on_sigint => Bjoern.on_sigint s
  | .Bjoern_Run => bjoern_cleanup s

/-- A sequence of calls, executed left to right. -/
def cleanup_calls (s : LoopState) (calls : List CleanupCall) : LoopState :=
  calls.foldl CleanupCall.apply s

/-! ## Start-up: init_socket and Bjoern_Run -/

/-- What start-up obtains from the outside: whether `PyArg_ParseTuple` accepted the
arguments, the results of `socket`, `bind` and `listen`, and for each of the three
message literals the integer its address converts to when a failing `init_socket`
returns it and `Bjoern_Run` stores it in `sockfd`. -/
structure SocketEnv where
  args_ok : Bool
  socket_ret : Int
  bind_ret : Int
  listen_ret : Int
  addr_socket_failed : Int
  addr_bind_failed : Int
  addr_listen_failed : Int
  deriving DecidableEq, Repr

/-- Effects of start-up, in program order.  `PyErr_Format` carries the integer whose
conversion to `char*` is printed. -/
inductive RunEffect where
  | socket
  | inet_aton
  | setsockopt
  | bind
  | listen
  | PyErr_Format (sockfd : Int)
  | ev_loop_new
  | ev_io_start_accept (sockfd : Int)
  | ev_signal_start
  | ev_loop
  | bjoern_cleanup
  deriving DecidableEq, Repr

/-- `init_socket`: the returned integer and the calls made. -/
def init_socket (env : SocketEnv) : Int × List RunEffect :=
  if env.socket_ret < 0 then
    (env.addr_socket_failed, [.socket])
  else if env.bind_ret < 0 then
    (env.addr_bind_failed, [.socket, .inet_aton, .setsockopt, .bind])
  else if env.listen_ret < 0 then
    (env.addr_listen_failed, [.socket, .inet_aton, .setsockopt, .bind, .listen])
  else
    (env.socket_ret, [.socket, .inet_aton, .setsockopt, .bind, .listen])

/-- Result of `Bjoern_Run`: whether it returned `NULL` (an error is reported to the
Python caller) and its effects. -/
structure RunResult where
  returned_NULL : Bool
  trace : List RunEffect
  deriving DecidableEq, Repr

/-- `Bjoern_Run`. -/
def Bjoern_Run (env : SocketEnv) : RunResult :=
  if !env.args_ok then
    { returned_NULL := true, trace := [] }
  else
    let r := init_socket env
    let sockfd := r.1
    if sockfd < 0 then
      { returned_NULL := true, trace := r.2 ++ [.PyErr_Format sockfd] }
    else
      { returned_NULL := false
        trace := r.2 ++ [.ev_loop_new, .ev_io_start_accept sockfd, .ev_signal_start,
                          .ev_loop, .bjoern_cleanup] }

/-- The state `Bjoern_Run` establishes with `shall_cleanup = true` just before it
enters `ev_loop`. -/
def Bjoern_Run_before_loop : LoopState :=
  { shall_cleanup := true, unloop_requests := 0, interrupts := 0 }

/-! ## The life of one connection as a transition system -/

/-- The write phase was entered with handler `h` committed: the callback returned,
both function pointers are those of `h`, the read watcher is stopped and the write
watcher is started. -/
def Run.committed (r : Run) (h : Handler) : Prop :=
  r.status = .returned ∧ r.txn.handler_write = some h ∧ r.txn.handler_finalize = some h ∧
    r.txn.read_watcher = false ∧ r.txn.write_watcher = true

/-! ## Concrete inputs used to evaluate the callbacks -/

/-- Both allocations succeed and `accept` yields descriptor 5. -/
def sample_accept : AcceptEnv :=
  { transaction_calloc_ok := true, parser_calloc_ok := true, accept_ret := 5,
    fcntl_getfl := 2 }

/-- The transaction of a freshly accepted connection. -/
def accepted : Transaction := (on_sock_accept sample_accept).txn

/-- Handlers whose initialisers all succeed. -/
def willing_handlers : Handlers :=
  { cache_handler_init := fun _ => true
    wsgi_handler_init := fun _ => true
    raw_handler_init := fun _ => true }

/-- Handlers of which only the Raw initialiser succeeds. -/
def declining_handlers : Handlers :=
  { cache_handler_init := fun _ => false
    wsgi_handler_init := fun _ => false
    raw_handler_init := fun _ => true }

/-- A read of `n` bytes after which the parser callbacks have set exit code `c`. -/
def chunk (n : Int) (c : ExitCode) : ReadEnv :=
  { bytes_read := n, parser_mark := some c, PyErr_Occurred := false }

/-- A read of `n` bytes during which the parser callbacks set no exit code. -/
def unmarked_chunk (n : Int) : ReadEnv :=
  { bytes_read := n, parser_mark := none, PyErr_Occurred := false }

/-- A read that returns 0: the peer has closed the connection. -/
def end_of_file : ReadEnv :=
  { bytes_read := 0, parser_mark := none, PyErr_Occurred := false }

/-- Handlers of which only the Cache initialiser declines. -/
def cache_declining_handlers : Handlers :=
  { cache_handler_init := fun _ => false
    wsgi_handler_init := fun _ => true
    raw_handler_init := fun _ => true }

/-- Start-up in which `socket`, `bind` and `listen` return the given values and the
three message literals lie at addresses 4196084, 4196100 and 4196114. -/
def startup (socket_ret bind_ret listen_ret : Int) : SocketEnv :=
  { args_ok := true, socket_ret := socket_ret, bind_ret := bind_ret,
    listen_ret := listen_ret, addr_socket_failed := 4196084,
    addr_bind_failed := 4196100, addr_listen_failed := 4196114 }

end Bjoern

namespace Bjoern

/-! ## Shutdown -/

theorem cleanup_call_of_pending (s : LoopState) (c : CleanupCall)
    (hs : s.shall_cleanup = true) :
    (CleanupCall.apply s c).shall_cleanup = false ∧
      (CleanupCall.apply s c).unloop_requests = s.unloop_requests + 1 := by
  cases c <;> simp [CleanupCall.apply, on_sigint, bjoern_cleanup, hs]

theorem cleanup_call_of_done (s : LoopState) (c : CleanupCall)
    (hs : s.shall_cleanup = false) :
    (CleanupCall.apply s c).shall_cleanup = false ∧
      (CleanupCall.apply s c).unloop_requests = s.unloop_requests := by
  cases c <;> simp [CleanupCall.apply, on_sigint, bjoern_cleanup, hs]

theorem cleanup_calls_of_done (calls : List CleanupCall) (s : LoopState)
    (hs : s.shall_cleanup = false) :
    (cleanup_calls s calls).shall_cleanup = false ∧
      (cleanup_calls s calls).unloop_requests = s.unloop_requests := by
  induction calls generalizing s with
  | nil => exact ⟨hs, rfl⟩
  | cons c rest ih =>
    have h1 := cleanup_call_of_done s c hs
    have h2 := ih (CleanupCall.apply s c) h1.1
    simp only [cleanup_calls, List.foldl_cons] at h2 ⊢
    exact ⟨h2.1, h2.2.trans h1.2⟩

theorem cleanup_calls_of_pending (calls : List CleanupCall) (s : LoopState)
    (hs : s.shall_cleanup = true) (hne : calls ≠ []) :
    (cleanup_calls s calls).shall_cleanup = false ∧
      (cleanup_calls s calls).unloop_requests = s.unloop_requests + 1 := by
  cases calls with
  | nil => exact absurd rfl hne
  | cons c rest =>
    have h1 := cleanup_call_of_pending s c hs
    have h2 := cleanup_calls_of_done rest (CleanupCall.apply s c) h1.1
    simp only [cleanup_calls, List.foldl_cons] at h2 ⊢
    exact ⟨h2.1, h2.2.trans h1.2⟩

/-- C8: starting with `shall_cleanup = true`, any non-empty sequence of calls of
`bjoern_cleanup` (from `on_sigint` or from `Bjoern_Run`) requests `ev_unloop` exactly
once and leaves `shall_cleanup` false; every call after the first changes neither
`shall_cleanup` nor the number of requests, and `bjoern_cleanup` is idempotent. -/
theorem bjoern_cleanup_requests_unloop_once (s : LoopState) (calls : List CleanupCall)
    (hs : s.shall_cleanup = true) (hne : calls ≠ []) :
    (cleanup_calls s calls).unloop_requests = s.unloop_requests + 1 ∧
    (cleanup_calls s calls).shall_cleanup = false ∧
    (∀ (pre : List CleanupCall) (c : CleanupCall) (post : List CleanupCall),
        calls = pre ++ c :: post → pre ≠ [] →
        bjoern_cleanup (cleanup_calls s pre) = cleanup_calls s pre ∧
        (CleanupCall.apply (cleanup_calls s pre) c).shall_cleanup =
          (cleanup_calls s pre).shall_cleanup ∧
        (CleanupCall.apply (cleanup_calls s pre) c).unloop_requests =
          (cleanup_calls s pre).unloop_requests) ∧
    (∀ x : LoopState, bjoern_cleanup (bjoern_cleanup x) = bjoern_cleanup x) := by
  have h := cleanup_calls_of_pending calls s hs hne
  refine ⟨h.2, h.1, ?_, ?_⟩
  · intro pre c post _ hpre
    have hp := cleanup_calls_of_pending pre s hs hpre
    have hc := cleanup_call_of_done (cleanup_calls s pre) c hp.1
    refine ⟨?_, hc.1.trans hp.1.symm, hc.2⟩
    simp [bjoern_cleanup, hp.1]
  · intro x
    cases hx : x.shall_cleanup <;> simp [bjoern_cleanup, hx]

/-- Instance of C8: SIGINT delivered twice, then the call at the end of `Bjoern_Run`. -/
theorem bjoern_cleanup_requests_unloop_once_witness :
    (cleanup_calls Bjoern_Run_before_loop
        [.on_sigint, .on_sigint, .Bjoern_Run]).unloop_requests = 1 ∧
    (cleanup_calls Bjoern_Run_before_loop
        [.on_sigint, .on_sigint, .Bjoern_Run]).shall_cleanup = false :=
  have h := bjoern_cleanup_requests_unloop_once Bjoern_Run_before_loop
    [.on_sigint, .on_sigint, .Bjoern_Run] rfl (by simp)
  ⟨h.1, h.2.1⟩

/-! ## Write phase -/

theorem write_events_not_yet_finished (n : Nat) (t : Transaction) (w : Handler)
    (hw : t.handler_write = some w) (hact : t.write_watcher = true) :
    write_events t (List.replicate n .RESPONSE_NOT_YET_FINISHED) =
      { txn := t, trace := List.replicate n (.handler_write w), status := .returned } := by
  induction n with
  | zero => rfl
  | succ k ih =>
    simp [List.replicate_succ, write_events, while_sock_canwrite, hw, hact, ih]

theorem write_events_append (t : Transaction) (w : Handler) (n : Nat)
    (rest : List response_status)
    (hw : t.handler_write = some w) (hact : t.write_watcher = true) :
    write_events t (List.replicate n .RESPONSE_NOT_YET_FINISHED ++ rest) =
      { txn := (write_events t rest).txn
        trace := List.replicate n (.handler_write w) ++ (write_events t rest).trace
        status := (write_events t rest).status } := by
  induction n with
  | zero => simp
  | succ k ih =>
    simp [List.replicate_succ, write_events, while_sock_canwrite, hw, hact, ih]

/-- C3: for a handler whose write answers NOT_YET_FINISHED n times and then FINISHED,
the first n write events only call the handler's write and leave the connection in
the write phase; the n+1 events together produce n+1 calls of write followed, in
event n+1 only, by stop of write-interest, close of the client descriptor, the
handler's finalize and Transaction_free, in that order.  Hence close, finalize and
free occur exactly once, and no close occurs during the first n events. -/
theorem while_sock_canwrite_finishes_once (n : Nat) (t : Transaction) (w f : Handler)
    (hw : t.handler_write = some w) (hf : t.handler_finalize = some f)
    (hact : t.write_watcher = true) :
    write_events t (List.replicate n .RESPONSE_NOT_YET_FINISHED) =
      { txn := t, trace := List.replicate n (.handler_write w), status := .returned } ∧
    write_events t (List.replicate n .RESPONSE_NOT_YET_FINISHED ++ [.RESPONSE_FINISHED]) =
      { txn := { t with write_watcher := false }
        trace := List.replicate n (.handler_write w) ++
          [.handler_write w, .ev_io_stop_write, .close t.client_fd,
           .handler_finalize f, .Transaction_free]
        status := .freed } ∧
    (∀ fd : Int, Effect.close fd ∉
      (write_events t (List.replicate n .RESPONSE_NOT_YET_FINISHED)).trace) ∧
    (write_events t (List.replicate n .RESPONSE_NOT_YET_FINISHED ++
      [.RESPONSE_FINISHED])).trace.count (.handler_write w) = n + 1 ∧
    (write_events t (List.replicate n .RESPONSE_NOT_YET_FINISHED ++
      [.RESPONSE_FINISHED])).trace.count (.close t.client_fd) = 1 ∧
    (write_events t (List.replicate n .RESPONSE_NOT_YET_FINISHED ++
      [.RESPONSE_FINISHED])).trace.count (.handler_finalize f) = 1 ∧
    (write_events t (List.replicate n .RESPONSE_NOT_YET_FINISHED ++
      [.RESPONSE_FINISHED])).trace.count .Transaction_free = 1 := by
  have h1 := write_events_not_yet_finished n t w hw hact
  have h2 : write_events t (List.replicate n .RESPONSE_NOT_YET_FINISHED ++
      [.RESPONSE_FINISHED]) =
      { txn := { t with write_watcher := false }
        trace := List.replicate n (.handler_write w) ++
          [.handler_write w, .ev_io_stop_write, .close t.client_fd,
           .handler_finalize f, .Transaction_free]
        status := .freed } := by
    rw [write_events_append t w n _ hw hact]
    simp [write_events, while_sock_canwrite, hw, hf, hact]
  refine ⟨h1, h2, ?_, ?_, ?_, ?_, ?_⟩
  · intro fd
    rw [h1]
    simp [List.mem_replicate]
  · rw [h2]
    simp [List.count_append, List.count_replicate, List.count_cons]
  · rw [h2]
    simp [List.count_append, List.count_replicate, List.count_cons]
  · rw [h2]
    simp [List.count_append, List.count_replicate, List.count_cons]
  · rw [h2]
    simp [List.count_append, List.count_replicate, List.count_cons]

/-- Instance of C3 from the specification: three NOT_YET_FINISHED answers, then
FINISHED, on a connection served by the Application handler on descriptor 7. -/
theorem while_sock_canwrite_finishes_once_witness :
    write_events
      { client_fd := 7, exit_code := .PARSER_OK, handler_write := some .wsgi,
        handler_finalize := some .wsgi, raw_response := none, read_watcher := false,
        write_watcher := true }
      (List.replicate 3 .RESPONSE_NOT_YET_FINISHED ++ [.RESPONSE_FINISHED]) =
      { txn :=
          { client_fd := 7, exit_code := .PARSER_OK, handler_write := some .wsgi,
            handler_finalize := some .wsgi, raw_response := none, read_watcher := false,
            write_watcher := false }
        trace := List.replicate 3 (.handler_write .wsgi) ++
          [.handler_write .wsgi, .ev_io_stop_write, .close 7,
           .handler_finalize .wsgi, .Transaction_free]
        status := .freed } :=
  (while_sock_canwrite_finishes_once 3
    { client_fd := 7, exit_code := .PARSER_OK, handler_write := some .wsgi,
      handler_finalize := some .wsgi, raw_response := none, read_watcher := false,
      write_watcher := true } .wsgi .wsgi rfl rfl rfl).2.1

/-! ## Read phase -/

theorem on_sock_read_default (cfg : Config) (H : Handlers) (env : ReadEnv)
    (t : Transaction) (revents : Nat)
    (hev : revents &&& EV_READ ≠ 0) (h0 : env.bytes_read ≠ 0) (h1 : env.bytes_read ≠ -1) :
    on_sock_read cfg H env t revents =
      match (http_parser_execute env t).exit_code with
      | .USE_CACHE =>
        if cfg.WANT_CACHING then
          match TRY_HANDLER .cache H.cache_handler_init (http_parser_execute env t)
              [Effect.http_parser_execute] with
          | (true, t1, tr1) => read_finished t1 tr1
          | (false, t1, tr1) => case_PARSER_OK H env t1 tr1
        else
          { txn := http_parser_execute env t, trace := [Effect.http_parser_execute],
            status := .assert_failed }
      | .PARSER_OK =>
        case_PARSER_OK H env (http_parser_execute env t) [Effect.http_parser_execute]
      | .HTTP_INTERNAL_SERVER_ERROR =>
        case_PARSER_OK H env (http_parser_execute env t) [Effect.http_parser_execute]
      | .HTTP_NOT_FOUND =>
        match TRY_HANDLER .raw H.raw_handler_init
            (set_raw_response (http_parser_execute env t) .HTTP_404_MESSAGE)
            [Effect.http_parser_execute] with
        | (true, t2, tr2) => read_finished t2 tr2
        | (false, t2, tr2) => { txn := t2, trace := tr2, status := .assert_failed }
      | .other _ =>
        { txn := http_parser_execute env t, trace := [Effect.http_parser_execute],
          status := .assert_failed } := by
  simp only [on_sock_read, hev, h0, h1, if_false]

/-- C2: after a read of more than zero bytes with exit code PARSER_OK, when the
Application handler's initialize declines and the Raw handler's initialize succeeds,
`on_sock_read` returns with the Raw handler committed (both function pointers are
the raw ones), `handler_data.raw.response` equal to HTTP_500_MESSAGE, read-interest
stopped and write-interest registered. -/
theorem on_sock_read_wsgi_declined_sends_500 (cfg : Config) (H : Handlers)
    (env : ReadEnv) (t : Transaction) (revents : Nat)
    (hev : revents &&& EV_READ ≠ 0) (hread : 0 < env.bytes_read)
    (hexit : (http_parser_execute env t).exit_code = .PARSER_OK)
    (hwsgi : H.wsgi_handler_init (set_handler (http_parser_execute env t) .wsgi) = false)
    (hraw : H.raw_handler_init
      (set_handler (set_raw_response (set_handler (http_parser_execute env t) .wsgi)
        .HTTP_500_MESSAGE) .raw) = true) :
    (on_sock_read cfg H env t revents).committed .raw ∧
    (on_sock_read cfg H env t revents).txn.raw_response = some .HTTP_500_MESSAGE ∧
    (on_sock_read cfg H env t revents).txn =
      { http_parser_execute env t with
        handler_write := some .raw, handler_finalize := some .raw,
        raw_response := some .HTTP_500_MESSAGE,
        read_watcher := false, write_watcher := true } ∧
    Effect.handler_init .wsgi ∈ (on_sock_read cfg H env t revents).trace ∧
    [Effect.handler_init .raw, .GIL_UNLOCK, .ev_io_stop_read, .ev_io_start_write] <:+
      (on_sock_read cfg H env t revents).trace := by
  have key : on_sock_read cfg H env t revents =
      read_finished
        (set_handler (set_raw_response (set_handler (http_parser_execute env t) .wsgi)
          .HTTP_500_MESSAGE) .raw)
        ((if env.PyErr_Occurred then
            [Effect.http_parser_execute, .GIL_LOCK, .handler_init .wsgi, .PyErr_Print]
          else [Effect.http_parser_execute, .GIL_LOCK, .handler_init .wsgi]) ++
          [.handler_init .raw, .GIL_UNLOCK]) := by
    rw [on_sock_read_default cfg H env t revents hev (by omega) (by omega)]
    simp only [hexit, case_PARSER_OK, TRY_HANDLER, hwsgi, case_HTTP_INTERNAL_SERVER_ERROR,
      hraw]
    cases env.PyErr_Occurred <;> simp
  rw [key]
  refine ⟨?_, ?_, ?_, ?_, ?_⟩
  · simp [Run.committed, read_finished, set_handler]
  · simp [read_finished, set_handler, set_raw_response]
  · simp [read_finished, set_handler, set_raw_response]
  · cases env.PyErr_Occurred <;> simp [read_finished]
  · refine ⟨(if env.PyErr_Occurred then
        [Effect.http_parser_execute, .GIL_LOCK, .handler_init .wsgi, .PyErr_Print]
      else [Effect.http_parser_execute, .GIL_LOCK, .handler_init .wsgi]), ?_⟩
    simp [read_finished]

/-- Instance of C2: ten bytes are read on a fresh connection, the parser reports
PARSER_OK, the Application handler declines. -/
theorem on_sock_read_wsgi_declined_sends_500_witness :
    (on_sock_read { WANT_CACHING := false } declining_handlers
        (chunk 10 .PARSER_OK) accepted 1).committed .raw ∧
    (on_sock_read { WANT_CACHING := false } declining_handlers
        (chunk 10 .PARSER_OK) accepted 1).txn.raw_response = some .HTTP_500_MESSAGE :=
  have h := on_sock_read_wsgi_declined_sends_500 { WANT_CACHING := false }
    declining_handlers (chunk 10 .PARSER_OK) accepted 1 (by decide) (by decide) rfl rfl rfl
  ⟨h.1, h.2.1⟩

/-- C7: after a read of more than zero bytes with exit code HTTP_NOT_FOUND, when the
Raw handler's initialize succeeds, `on_sock_read` returns with the Raw handler
committed and `handler_data.raw.response` equal to HTTP_404_MESSAGE, read-interest
stopped and write-interest registered; the only initialiser invoked is the Raw
one, so the Application handler's initialize is not invoked. -/
theorem on_sock_read_not_found_sends_404 (cfg : Config) (H : Handlers)
    (env : ReadEnv) (t : Transaction) (revents : Nat)
    (hev : revents &&& EV_READ ≠ 0) (hread : 0 < env.bytes_read)
    (hexit : (http_parser_execute env t).exit_code = .HTTP_NOT_FOUND)
    (hraw : H.raw_handler_init
      (set_handler (set_raw_response (http_parser_execute env t) .HTTP_404_MESSAGE)
        .raw) = true) :
    (on_sock_read cfg H env t revents).committed .raw ∧
    (on_sock_read cfg H env t revents).txn.raw_response = some .HTTP_404_MESSAGE ∧
    (on_sock_read cfg H env t revents).txn =
      { http_parser_execute env t with
        handler_write := some .raw, handler_finalize := some .raw,
        raw_response := some .HTTP_404_MESSAGE,
        read_watcher := false, write_watcher := true } ∧
    (on_sock_read cfg H env t revents).trace =
      [.http_parser_execute, .handler_init .raw, .ev_io_stop_read, .ev_io_start_write] ∧
    Effect.handler_init .wsgi ∉ (on_sock_read cfg H env t revents).trace := by
  have key : on_sock_read cfg H env t revents =
      read_finished
        (set_handler (set_raw_response (http_parser_execute env t) .HTTP_404_MESSAGE) .raw)
        [Effect.http_parser_execute, .handler_init .raw] := by
    rw [on_sock_read_default cfg H env t revents hev (by omega) (by omega)]
    simp only [hexit, TRY_HANDLER, hraw]
    simp
  rw [key]
  refine ⟨?_, ?_, ?_, ?_, ?_⟩
  · simp [Run.committed, read_finished, set_handler]
  · simp [read_finished, set_handler, set_raw_response]
  · simp [read_finished, set_handler, set_raw_response]
  · simp [read_finished]
  · simp [read_finished]

/-- Instance of C7: ten bytes are read on a fresh connection and the parser reports
HTTP_NOT_FOUND. -/
theorem on_sock_read_not_found_sends_404_witness :
    (on_sock_read { WANT_CACHING := true } willing_handlers
        (chunk 10 .HTTP_NOT_FOUND) accepted 1).committed .raw ∧
    (on_sock_read { WANT_CACHING := true } willing_handlers
        (chunk 10 .HTTP_NOT_FOUND) accepted 1).txn.raw_response = some .HTTP_404_MESSAGE :=
  have h := on_sock_read_not_found_sends_404 { WANT_CACHING := true }
    willing_handlers (chunk 10 .HTTP_NOT_FOUND) accepted 1 (by decide) (by decide) rfl rfl
  ⟨h.1, h.2.1⟩

/-! ## Shape of every outcome of on_sock_read -/

theorem read_finished_phase (t : Transaction) (tr : List Effect) :
    (read_finished t tr).status = .returned ∧
    (read_finished t tr).txn.read_watcher = false ∧
    (read_finished t tr).txn.write_watcher = true ∧
    (read_finished t tr).txn.handler_write = t.handler_write ∧
    (read_finished t tr).txn.handler_finalize = t.handler_finalize ∧
    [Effect.ev_io_stop_read, .ev_io_start_write] <:+ (read_finished t tr).trace :=
  ⟨rfl, rfl, rfl, rfl, rfl, tr, rfl⟩

theorem read_finished_committed (t : Transaction) (tr : List Effect) (n : Handler)
    (hw : t.handler_write = some n) (hf : t.handler_finalize = some n) :
    (read_finished t tr).committed n :=
  ⟨rfl, hw, hf, rfl, rfl⟩

theorem case_HTTP_INTERNAL_SERVER_ERROR_cases (H : Handlers) (env : ReadEnv)
    (t : Transaction) (tr : List Effect) :
    (∃ tr1, case_HTTP_INTERNAL_SERVER_ERROR H env t tr =
        read_finished (set_handler (set_raw_response t .HTTP_500_MESSAGE) .raw) tr1) ∨
    (∃ tr1, case_HTTP_INTERNAL_SERVER_ERROR H env t tr =
        { txn := set_handler (set_raw_response t .HTTP_500_MESSAGE) .raw, trace := tr1,
          status := .assert_failed }) := by
  unfold case_HTTP_INTERNAL_SERVER_ERROR TRY_HANDLER
  cases H.raw_handler_init (set_handler (set_raw_response t .HTTP_500_MESSAGE) .raw)
  · exact Or.inr ⟨_, rfl⟩
  · exact Or.inl ⟨_, rfl⟩

theorem case_PARSER_OK_cases (H : Handlers) (env : ReadEnv)
    (t : Transaction) (tr : List Effect) :
    (∃ tr1, case_PARSER_OK H env t tr = read_finished t tr1 ∧
        t.exit_code ≠ .PARSER_OK ∧ t.exit_code ≠ .HTTP_INTERNAL_SERVER_ERROR) ∨
    (∃ tr1, case_PARSER_OK H env t tr = read_finished (set_handler t .wsgi) tr1) ∨
    (∃ t1 tr1, case_PARSER_OK H env t tr =
        read_finished (set_handler (set_raw_response t1 .HTTP_500_MESSAGE) .raw) tr1 ∧
        t1.read_watcher = t.read_watcher ∧ t1.write_watcher = t.write_watcher) ∨
    (∃ t1 tr1, case_PARSER_OK H env t tr =
        { txn := set_handler (set_raw_response t1 .HTTP_500_MESSAGE) .raw, trace := tr1,
          status := .assert_failed } ∧
        t1.read_watcher = t.read_watcher ∧ t1.write_watcher = t.write_watcher) := by
  unfold case_PARSER_OK TRY_HANDLER
  cases hx : t.exit_code with
  | PARSER_OK =>
    cases H.wsgi_handler_init (set_handler t .wsgi)
    · rcases case_HTTP_INTERNAL_SERVER_ERROR_cases H env (set_handler t .wsgi)
          (tr ++ [.GIL_LOCK] ++ [.handler_init .wsgi]) with ⟨tr1, h⟩ | ⟨tr1, h⟩
      · exact Or.inr (Or.inr (Or.inl ⟨_, tr1, h, rfl, rfl⟩))
      · exact Or.inr (Or.inr (Or.inr ⟨_, tr1, h, rfl, rfl⟩))
    · exact Or.inr (Or.inl ⟨_, rfl⟩)
  | HTTP_INTERNAL_SERVER_ERROR =>
    rcases case_HTTP_INTERNAL_SERVER_ERROR_cases H env t (tr ++ [.GIL_LOCK]) with
      ⟨tr1, h⟩ | ⟨tr1, h⟩
    · exact Or.inr (Or.inr (Or.inl ⟨_, tr1, h, rfl, rfl⟩))
    · exact Or.inr (Or.inr (Or.inr ⟨_, tr1, h, rfl, rfl⟩))
  | HTTP_NOT_FOUND => exact Or.inl ⟨_, rfl, by simp, by simp⟩
  | USE_CACHE => exact Or.inl ⟨_, rfl, by simp, by simp⟩
  | other c => exact Or.inl ⟨_, rfl, by simp, by simp⟩

theorem http_parser_execute_watchers (env : ReadEnv) (t : Transaction) :
    (http_parser_execute env t).read_watcher = t.read_watcher ∧
    (http_parser_execute env t).write_watcher = t.write_watcher := by
  unfold http_parser_execute
  cases env.parser_mark <;> exact ⟨rfl, rfl⟩

/-- Every run of the dispatch in `on_sock_read` ends either at `read_finished` with
some handler's function pointers installed, or at `assert(0)` with both watchers as
they were. -/
theorem on_sock_read_dispatch_cases (cfg : Config) (H : Handlers) (env : ReadEnv)
    (t : Transaction) (revents : Nat)
    (hev : revents &&& EV_READ ≠ 0) (h0 : env.bytes_read ≠ 0) (h1 : env.bytes_read ≠ -1) :
    (∃ t1 tr1 n, on_sock_read cfg H env t revents = read_finished t1 tr1 ∧
        t1.handler_write = some n ∧ t1.handler_finalize = some n) ∨
    ((on_sock_read cfg H env t revents).status = .assert_failed ∧
      (on_sock_read cfg H env t revents).txn.read_watcher = t.read_watcher ∧
      (on_sock_read cfg H env t revents).txn.write_watcher = t.write_watcher) := by
  have hw := http_parser_execute_watchers env t
  have hpo : ∀ tr, (http_parser_execute env t).exit_code = .PARSER_OK ∨
      (http_parser_execute env t).exit_code = .HTTP_INTERNAL_SERVER_ERROR →
      (∃ t1 tr1 n, case_PARSER_OK H env (http_parser_execute env t) tr =
          read_finished t1 tr1 ∧ t1.handler_write = some n ∧ t1.handler_finalize = some n) ∨
      ((case_PARSER_OK H env (http_parser_execute env t) tr).status = .assert_failed ∧
        (case_PARSER_OK H env (http_parser_execute env t) tr).txn.read_watcher =
          t.read_watcher ∧
        (case_PARSER_OK H env (http_parser_execute env t) tr).txn.write_watcher =
          t.write_watcher) := by
    intro tr hx
    rcases case_PARSER_OK_cases H env (http_parser_execute env t) tr with
      ⟨tr1, _, hn1, hn2⟩ | ⟨tr1, h⟩ | ⟨t1, tr1, h, _, _⟩ | ⟨t1, tr1, h, hr, hwr⟩
    · rcases hx with hx | hx
      · exact absurd hx hn1
      · exact absurd hx hn2
    · exact Or.inl ⟨_, tr1, .wsgi, h, rfl, rfl⟩
    · exact Or.inl ⟨_, tr1, .raw, h, rfl, rfl⟩
    · refine Or.inr ?_
      rw [h]
      exact ⟨rfl, hr.trans hw.1, hwr.trans hw.2⟩
  rw [on_sock_read_default cfg H env t revents hev h0 h1]
  cases hx : (http_parser_execute env t).exit_code with
  | PARSER_OK => exact hpo _ (Or.inl hx)
  | HTTP_INTERNAL_SERVER_ERROR => exact hpo _ (Or.inr hx)
  | HTTP_NOT_FOUND =>
    simp only [TRY_HANDLER]
    cases H.raw_handler_init
      (set_handler (set_raw_response (http_parser_execute env t) .HTTP_404_MESSAGE) .raw)
    · exact Or.inr ⟨rfl, hw.1, hw.2⟩
    · exact Or.inl ⟨_, _, .raw, rfl, rfl, rfl⟩
  | USE_CACHE =>
    cases cfg.WANT_CACHING with
    | false => exact Or.inr ⟨rfl, hw.1, hw.2⟩
    | true =>
      simp only [TRY_HANDLER, if_true]
      cases H.cache_handler_init (set_handler (http_parser_execute env t) .cache)
      · rcases case_PARSER_OK_cases H env (set_handler (http_parser_execute env t) .cache)
            ([Effect.http_parser_execute] ++ [.handler_init .cache]) with
          ⟨tr1, h, _, _⟩ | ⟨tr1, h⟩ | ⟨t1, tr1, h, _, _⟩ | ⟨t1, tr1, h, hr, hwr⟩
        · exact Or.inl ⟨_, tr1, .cache, h, rfl, rfl⟩
        · exact Or.inl ⟨_, tr1, .wsgi, h, rfl, rfl⟩
        · exact Or.inl ⟨_, tr1, .raw, h, rfl, rfl⟩
        · refine Or.inr ?_
          dsimp only
          rw [h]
          exact ⟨rfl, hr.trans hw.1, hwr.trans hw.2⟩
      · exact Or.inl ⟨_, _, .cache, rfl, rfl, rfl⟩
  | other c => exact Or.inr ⟨rfl, hw.1, hw.2⟩

theorem case_HTTP_INTERNAL_SERVER_ERROR_trace (H : Handlers) (env : ReadEnv)
    (t : Transaction) (tr : List Effect) (e : Effect) (he : e ∈ tr) :
    e ∈ (case_HTTP_INTERNAL_SERVER_ERROR H env t tr).trace := by
  unfold case_HTTP_INTERNAL_SERVER_ERROR TRY_HANDLER
  cases H.raw_handler_init (set_handler (set_raw_response t .HTTP_500_MESSAGE) .raw) <;>
    cases env.PyErr_Occurred <;> simp [read_finished, he]

/-- C5 (amended): a read of more than zero bytes never leaves the connection waiting.
`on_sock_read` dispatches in the same call on the current exit code: it either
commits some handler, stops read-interest and registers write-interest, or ends in
`assert(0)`.  When the parser has marked nothing and the exit code is still the
PARSER_OK set by `Transaction_new`, the Application handler's initialize is invoked,
and if it succeeds the Application handler is committed. -/
theorem on_sock_read_never_waits (cfg : Config) (H : Handlers) (env : ReadEnv)
    (t : Transaction) (revents : Nat)
    (hev : revents &&& EV_READ ≠ 0) (hread : 0 < env.bytes_read) :
    ((on_sock_read cfg H env t revents).status = .assert_failed ∨
      ∃ n, (on_sock_read cfg H env t revents).committed n) ∧
    (env.parser_mark = none → t.exit_code = .PARSER_OK →
      Effect.handler_init .wsgi ∈ (on_sock_read cfg H env t revents).trace ∧
      (H.wsgi_handler_init (set_handler t .wsgi) = true →
        (on_sock_read cfg H env t revents).committed .wsgi)) := by
  constructor
  · rcases on_sock_read_dispatch_cases cfg H env t revents hev (by omega) (by omega) with
      ⟨t1, tr1, n, h, hw, hf⟩ | ⟨h, _, _⟩
    · exact Or.inr ⟨n, by rw [h]; exact read_finished_committed t1 tr1 n hw hf⟩
    · exact Or.inl h
  · intro hmark hexit
    have hp : http_parser_execute env t = t := by simp [http_parser_execute, hmark]
    rw [on_sock_read_default cfg H env t revents hev (by omega) (by omega)]
    simp only [hp, hexit, case_PARSER_OK, TRY_HANDLER]
    cases hw : H.wsgi_handler_init (set_handler t .wsgi)
    · refine ⟨?_, fun h => absurd h (by simp)⟩
      exact case_HTTP_INTERNAL_SERVER_ERROR_trace H env _ _ _ (by simp)
    · refine ⟨by simp [read_finished], fun _ => ?_⟩
      exact read_finished_committed _ _ .wsgi rfl rfl

/-- Instance of C5 (amended): ten bytes of an incomplete request on a fresh
connection. -/
theorem on_sock_read_never_waits_witness :
    (on_sock_read { WANT_CACHING := false } willing_handlers (unmarked_chunk 10)
        accepted 1).status = .assert_failed ∨
      ∃ n, (on_sock_read { WANT_CACHING := false } willing_handlers (unmarked_chunk 10)
        accepted 1).committed n :=
  (on_sock_read_never_waits { WANT_CACHING := false } willing_handlers (unmarked_chunk 10)
    accepted 1 (by decide) (by decide)).1

/-- C5 as stated fails: on a freshly accepted connection a read of ten bytes during
which the parser marks no outcome selects the Application handler, stops
read-interest and registers write-interest. -/
theorem on_sock_read_partial_request_counterexample :
    (on_sock_read { WANT_CACHING := false } willing_handlers (unmarked_chunk 10)
        accepted 1).txn.handler_write = some .wsgi ∧
    (on_sock_read { WANT_CACHING := false } willing_handlers (unmarked_chunk 10)
        accepted 1).txn.read_watcher = false ∧
    (on_sock_read { WANT_CACHING := false } willing_handlers (unmarked_chunk 10)
        accepted 1).txn.write_watcher = true ∧
    ¬ ((on_sock_read { WANT_CACHING := false } willing_handlers (unmarked_chunk 10)
          accepted 1).txn.handler_write = none ∧
       (on_sock_read { WANT_CACHING := false } willing_handlers (unmarked_chunk 10)
          accepted 1).txn.read_watcher = true ∧
       (on_sock_read { WANT_CACHING := false } willing_handlers (unmarked_chunk 10)
          accepted 1).txn.write_watcher = false) := by
  decide

/-- C4 (defect): with caching configured, a read of ten bytes with exit code
USE_CACHE whose Cache initialize declines enters the write phase with the Cache
handler's function pointers installed; the Application handler's initialize is never
invoked, because the nested switch finds no case for USE_CACHE. -/
theorem on_sock_read_commits_declined_cache :
    on_sock_read { WANT_CACHING := true } cache_declining_handlers (chunk 10 .USE_CACHE)
        accepted 1 =
      { txn :=
          { client_fd := 5, exit_code := .USE_CACHE, handler_write := some .cache,
            handler_finalize := some .cache, raw_response := none,
            read_watcher := false, write_watcher := true }
        trace := [.http_parser_execute, .handler_init .cache, .GIL_LOCK, .GIL_UNLOCK,
                  .ev_io_stop_read, .ev_io_start_write]
        status := .returned } ∧
    Effect.handler_init .wsgi ∉
      (on_sock_read { WANT_CACHING := true } cache_declining_handlers
        (chunk 10 .USE_CACHE) accepted 1).trace := by
  decide

/-- C6 (defect): when the first read on a fresh connection returns 0, `on_sock_read`
jumps to `read_finished` without dispatch: write-interest is registered while both
function pointers are still NULL, and the next write event calls through NULL. -/
theorem on_sock_read_eof_skips_dispatch (cfg : Config) (H : Handlers)
    (ret : response_status) :
    on_sock_read cfg H end_of_file accepted 1 =
      { txn :=
          { client_fd := 5, exit_code := .PARSER_OK, handler_write := none,
            handler_finalize := none, raw_response := none,
            read_watcher := false, write_watcher := true }
        trace := [.ev_io_stop_read, .ev_io_start_write]
        status := .returned } ∧
    (while_sock_canwrite (on_sock_read cfg H end_of_file accepted 1).txn ret).status =
      .null_pointer := by
  constructor <;> rfl

/-- C10 (defect): when the parser allocation fails, `Transaction_new` frees the
transaction and returns NULL, and `on_sock_accept` then stores the result of
`accept` through that NULL pointer; when the transaction allocation fails,
`Transaction_new` itself writes through NULL. -/
theorem on_sock_accept_uses_null_transaction (fd getfl : Int) :
    Transaction_new true false =
      { fault := false, result := none,
        trace := [.transaction_calloc, .parser_calloc, .free_transaction] } ∧
    (on_sock_accept ⟨true, false, fd, getfl⟩).status = .null_pointer ∧
    (Transaction_new false true).fault = true ∧
    (on_sock_accept ⟨false, true, fd, getfl⟩).status = .null_pointer := by
  refine ⟨rfl, rfl, rfl, rfl⟩

/-- C9 (defect): when `socket`, `bind` or `listen` fails and the message literal lies
at a positive address, `Bjoern_Run` sees a non-negative `sockfd`, reports no error,
creates the loop and starts the accept watcher on that number. -/
theorem Bjoern_Run_misses_setup_failure :
    Bjoern_Run (startup (-1) 0 0) =
      { returned_NULL := false
        trace := [.socket, .ev_loop_new, .ev_io_start_accept 4196084, .ev_signal_start,
                  .ev_loop, .bjoern_cleanup] } ∧
    Bjoern_Run (startup 3 (-1) 0) =
      { returned_NULL := false
        trace := [.socket, .inet_aton, .setsockopt, .bind, .ev_loop_new,
                  .ev_io_start_accept 4196100, .ev_signal_start, .ev_loop,
                  .bjoern_cleanup] } ∧
    Bjoern_Run (startup 3 0 (-1)) =
      { returned_NULL := false
        trace := [.socket, .inet_aton, .setsockopt, .bind, .listen, .ev_loop_new,
                  .ev_io_start_accept 4196114, .ev_signal_start, .ev_loop,
                  .bjoern_cleanup] } := by
  decide

/-! ## Read phase and write phase exclude each other -/

end Bjoern
